import Mathlib

/-!
Shallow embedding of the audio delivery core of DirettaRendererUPnP
(src/DirettaSync.cpp, src/DirettaSync.h), together with theorems checking
the natural-language specification against it.

The embedding follows the C++ source.  The ring-buffer primitives
(DirettaRingBuffer.h) and the DirettaBuffer sizing helpers are declared in
headers that are not part of the provided sources; where a definition had
to be reconstructed from the specification instead of the source, its doc
comment says so explicitly.
-/

/-- Modelled from the spec: the DSD source file format carried by
`AudioFormat::dsdFormat` (the AudioFormat header is not in the sources;
DirettaSync.cpp only compares it against `DSDFormat::DSF`).  DSF sources
are LSB-first, DFF sources are MSB-first. -/
inductive DSDFileFormat
  | dsf
  | dff
  deriving DecidableEq, Repr

/-- Modelled from the spec: the `AudioFormat` value handed to `open`
(§3 of the spec); DirettaSync.cpp reads exactly the fields
`sampleRate`, `bitDepth`, `channels`, `isDSD` and `dsdFormat`. -/
structure AudioFormat where
  sampleRate : Nat
  bitDepth : Nat
  channels : Nat
  isDSD : Bool
  dsdFormat : DSDFileFormat
  deriving DecidableEq, Repr

/-- Modelled from the spec: the `DirettaConfig` record stored by `enable`
(its header is not in the sources); only the fields DirettaSync.cpp
actually reads are kept. -/
structure DirettaConfig where
  cycleTime : Nat
  threadMode : Nat
  mtu : Nat
  mtuFallback : Nat
  onlineWaitMs : Nat
  formatSwitchDelayMs : Nat
  cycleTimeAuto : Bool
  deriving DecidableEq, Repr

/-- `DirettaRingBuffer::DSDConversionMode`: the four pre-composed DSD
transforms selected by `configureSinkDSD`. -/
inductive DSDConversionMode
  | Passthrough
  | BitReverseOnly
  | ByteSwapOnly
  | BitReverseAndSwap
  deriving DecidableEq, Repr

/-- The encoding of a `(needs_bit_reverse, needs_byte_swap)` pair as a
`DSDConversionMode`, as written out branch by branch in
`configureSinkDSD` (DirettaSync.cpp lines 932-940). -/
def encodeConversion (bitRev byteSwap : Bool) : DSDConversionMode :=
  if bitRev && byteSwap then DSDConversionMode.BitReverseAndSwap
  else if bitRev then DSDConversionMode.BitReverseOnly
  else if byteSwap then DSDConversionMode.ByteSwapOnly
  else DSDConversionMode.Passthrough

/-- DSD wire bit order of a sink format descriptor. -/
inductive DSDBitOrder
  | lsb
  | msb
  deriving DecidableEq, Repr

/-- DSD wire endianness of a sink format descriptor. -/
inductive DSDEndian
  | big
  | little
  deriving DecidableEq, Repr

/--
The mutable state of a `DirettaSync` object, restricted to the fields the
verified operations touch.  The ring buffer content is the list of bytes
currently buffered (front = oldest); `ringCapacity` is its allocated size.
`sampleRate` is the `m_sampleRate` atomic, `online` the transport
`is_online()` observation, and `ringUsers` the `m_ringUsers` counter of
the reconfigure gate.
-/
structure SyncState where
  ring : List Nat
  ringCapacity : Nat
  silenceByte : Nat
  bytesPerBuffer : Nat
  reconfiguring : Bool
  ringUsers : Nat
  silenceBuffersRemaining : Nat
  stopRequested : Bool
  prefillComplete : Bool
  prefillTarget : Nat
  postOnlineDelayDone : Bool
  stabilizationCount : Nat
  streamCount : Nat
  underrunCount : Nat
  isDsdMode : Bool
  sampleRate : Nat
  channels : Nat
  effectiveMTU : Nat
  draining : Bool
  online : Bool
  playing : Bool
  paused : Bool
  enabled : Bool
  isOpen : Bool
  hasPreviousFormat : Bool
  previousFormat : AudioFormat
  config : DirettaConfig
  deriving DecidableEq, Repr

/--
The DSD stabilization-target computation of `getNewStream`
(DirettaSync.cpp lines 1265-1288), with the double arithmetic of the
source carried out exactly over `ℚ`.  `storedSampleRate` is the value the
code loads from `m_sampleRate`.  Note that when `storedSampleRate = 0`
the source divides by an infinite `cycleTimeUs` and obtains
`buffersNeeded = 0`; the `ℚ` convention `x / 0 = 0` produces the same
`buffersNeeded = 0` through `cycleTimeUs = 0`, so the final clamped
result agrees with the IEEE evaluation.
-/
def dsdStabilizationTarget (storedSampleRate mtu : Nat) : Nat :=
  let dsdMultiplier : Nat := storedSampleRate / 2822400
  let targetWarmupMs : Nat := 50 * max 1 dsdMultiplier
  let efficientMTU : ℤ := (mtu : ℤ) - 24
  let bytesPerSecond : ℚ := (storedSampleRate : ℚ) * 2 / 8
  let cycleTimeUs : ℚ := (efficientMTU : ℚ) / bytesPerSecond * 1000000
  let buffersNeeded : ℚ := (targetWarmupMs : ℚ) * 1000 / cycleTimeUs
  let target : ℤ := ⌈buffersNeeded⌉
  (max 50 (min target 3000)).toNat

/-- Result of one invocation of the cycle callback: the successor state,
the bytes written into the transport buffer, and the returned flag. -/
structure StreamResult where
  state : SyncState
  output : List Nat
  ret : Bool
  deriving DecidableEq, Repr

/-- The stabilization target of the post-online warmup
(DirettaSync.cpp lines 1265-1288): the fixed PCM constant, or the
MTU-scaled DSD computation. -/
def warmupTargetOf (pcmWarmup : Nat) (s : SyncState) : Nat :=
  if s.isDsdMode then dsdStabilizationTarget s.sampleRate s.effectiveMTU
  else pcmWarmup

/-- The post-online stabilization branch of `getNewStream`
(DirettaSync.cpp lines 1290-1294): increment the counter; when it reaches
the target, mark the warmup done and reset the counter. -/
def warmupAdvance (pcmWarmup : Nat) (s : SyncState) : SyncState :=
  if warmupTargetOf pcmWarmup s ≤ s.stabilizationCount + 1 then
    { s with postOnlineDelayDone := true, stabilizationCount := 0 }
  else
    { s with stabilizationCount := s.stabilizationCount + 1 }

theorem warmupAdvance_ring (pcmWarmup : Nat) (s : SyncState) :
    (warmupAdvance pcmWarmup s).ring = s.ring := by
  unfold warmupAdvance
  split_ifs <;> rfl

/--
`DirettaSync::getNewStream` (DirettaSync.cpp lines 1212-1324), the
per-cycle consumer callback.  `pcmWarmup` stands for
`DirettaBuffer::POST_ONLINE_SILENCE_BUFFERS`, a constant declared in a
header that is not in the sources, so it is passed as a parameter.  The
ring-buffer `pop` follows the spec of DirettaRingBuffer (§4.1): it
removes `min(available, n)` bytes from the front.  The sequential model
folds the two `RingAccessGuard` loads of `m_reconfiguring` into the
single state field `reconfiguring`.
-/
def getNewStream (pcmWarmup : Nat) (s : SyncState) : StreamResult :=
  let bpb := s.bytesPerBuffer
  let sil := s.silenceByte
  if s.reconfiguring = true then
    { state := s, output := List.replicate bpb sil, ret := true }
  else if 0 < s.silenceBuffersRemaining then
    { state := { s with silenceBuffersRemaining := s.silenceBuffersRemaining - 1 },
      output := List.replicate bpb sil, ret := true }
  else if s.stopRequested = true then
    { state := s, output := List.replicate bpb sil, ret := true }
  else if s.prefillComplete = false then
    { state := s, output := List.replicate bpb sil, ret := true }
  else if s.postOnlineDelayDone = false then
    { state := warmupAdvance pcmWarmup s,
      output := List.replicate bpb sil, ret := true }
  else
    let s1 := { s with streamCount := s.streamCount + 1 }
    if s1.ring.length < bpb then
      { state := { s1 with underrunCount := s1.underrunCount + 1 },
        output := List.replicate bpb sil, ret := true }
    else
      { state := { s1 with ring := s1.ring.drop bpb },
        output := s1.ring.take bpb, ret := true }

/-- The six conditions that must all hold for `getNewStream` to reach the
normal pop path, in the order the source tests them. -/
def guardsPass (s : SyncState) : Prop :=
  s.reconfiguring = false ∧ s.silenceBuffersRemaining = 0 ∧
  s.stopRequested = false ∧ s.prefillComplete = true ∧
  s.postOnlineDelayDone = true ∧ s.bytesPerBuffer ≤ s.ring.length

instance (s : SyncState) : Decidable (guardsPass s) := by
  unfold guardsPass
  infer_instance

/--
The `RingAccessGuard` constructor (DirettaSync.cpp lines 14-27), with the
two loads of `m_reconfiguring` exposed as the separate observations `o1`
(before the user-count increment) and `o2` (after it), so the interleaving
in which the flag becomes visible only after the increment can be stated.
Returns whether the guard became active and the resulting `m_ringUsers`
value after the constructor has run (including the compensating decrement
of the abort path).
-/
def ringGuardAcquire (users : Nat) (o1 o2 : Bool) : Bool × Nat :=
  if o1 = true then (false, users)
  else
    let users1 := users + 1
    if o2 = true then (false, users1 - 1)
    else (true, users1)

/-- Modelled from the spec: `DirettaRingBuffer::push` (DirettaRingBuffer.h
is not in the sources).  Per §4.1 every push variant writes the input
bytes and returns the byte count actually written, with partial writes
when the buffer fills.  The wire-format conversion of the input block is
outside the scope of the verified claims, so the pushed block is taken as
already converted bytes. -/
def ringPush (cap : Nat) (ring data : List Nat) : List Nat × Nat :=
  let w := min data.length (cap - ring.length)
  (ring ++ data.take w, w)

/--
`DirettaSync::sendAudio` (DirettaSync.cpp lines 1110-1198), the producer
entry, with the two `RingAccessGuard` observations of `m_reconfiguring`
exposed as `o1`/`o2`.  `data` is the converted byte block to be pushed
(the per-format `totalBytes` computation and conversion dispatch do not
affect the verified claims).  Returns the successor state and the byte
count returned to the caller.
-/
def sendAudioObs (o1 o2 : Bool) (data : List Nat) (s : SyncState) : SyncState × Nat :=
  if s.draining = true then (s, 0)
  else if s.stopRequested = true then (s, 0)
  else if s.online = false then (s, 0)
  else
    let guard := ringGuardAcquire s.ringUsers o1 o2
    if guard.1 = false then (s, 0)
    else
      let pushed := ringPush s.ringCapacity s.ring data
      let s1 := { s with ring := pushed.1 }
      let written := pushed.2
      if 0 < written ∧ s1.prefillComplete = false ∧ s1.prefillTarget ≤ s1.ring.length then
        ({ s1 with prefillComplete := true }, written)
      else
        (s1, written)

/-- `DirettaSync::sendAudio` with both guard loads observing the current
`reconfiguring` flag (the sequential execution of the source). -/
def sendAudio (data : List Nat) (s : SyncState) : SyncState × Nat :=
  sendAudioObs s.reconfiguring s.reconfiguring data s

/-- `DirettaSync::requestShutdownSilence` (DirettaSync.cpp lines
1385-1389). -/
def requestShutdownSilence (buffers : Nat) (s : SyncState) : SyncState :=
  { s with silenceBuffersRemaining := buffers, draining := true }

/--
`DirettaSync::stopPlayback` (DirettaSync.cpp lines 1041-1063).  The
bounded wait for the shutdown silence to drain is a timing loop with no
further state effect and is elided.  Returns the successor state and the
underrun total reported at session end (the `exchange(0)` value).
-/
def stopPlayback (immediate : Bool) (s : SyncState) : SyncState × Nat :=
  let reported := s.underrunCount
  let s1 := { s with underrunCount := 0 }
  if s1.playing = false then (s1, reported)
  else
    let s2 :=
      if immediate = false then
        requestShutdownSilence (if s1.isDsdMode then 50 else 20) s1
      else s1
    ({ s2 with playing := false, paused := false }, reported)

/--
`DirettaSync::configureSinkPCM` (DirettaSync.cpp lines 791-824).
`accepts rate channels bits` abstracts `checkSinkSupport` on the
descriptor built from `setSpeed rate`, `setChannel channels` and the
`FMT_PCM_SIGNED_<bits>` format id.  Returns the accepted wire bit depth,
or `none` for the `std::runtime_error` throw when no depth is accepted.
-/
def configureSinkPCM (accepts : Nat → Nat → Nat → Bool) (rate channels : Nat) :
    Option Nat :=
  if accepts rate channels 32 = true then some 32
  else if accepts rate channels 24 = true then some 24
  else if accepts rate channels 16 = true then some 16
  else none

/-- Modelled from the spec: the failure boundary of `open` for an
unsupported PCM format.  `configureSinkPCM` signals failure by throwing;
the catching caller is not in the sources, and §7 of the spec states that
`UnsupportedFormat` makes `open()` return failure per track while the
session stays up.  On success only the fields relevant to the claim are
set. -/
def openPCMModel (accepts : Nat → Nat → Nat → Bool) (rate channels : Nat)
    (s : SyncState) : Bool × SyncState :=
  match configureSinkPCM accepts rate channels with
  | none => (false, s)
  | some _ => (true, { s with isOpen := true })

/-- The wire bit order of the five DSD descriptors `configureSinkDSD`
tries, by index: 0 = LSB|BIG, 1 = MSB|BIG, 2 = LSB|LITTLE,
3 = MSB|LITTLE, 4 = the minimal `FMT_DSD1` descriptor, which the source
treats as an LSB|BIG target ("Last resort - assume LSB | BIG"). -/
def dsdWireOrder : Nat → DSDBitOrder
  | 1 => DSDBitOrder.msb
  | 3 => DSDBitOrder.msb
  | _ => DSDBitOrder.lsb

/-- The wire endianness of the five DSD descriptors, by index. -/
def dsdWireEndian : Nat → DSDEndian
  | 2 => DSDEndian.little
  | 3 => DSDEndian.little
  | _ => DSDEndian.big

/-- Outcome of the DSD sink negotiation: which descriptor was accepted
and the conversion flags stored into the sync object. -/
structure DSDNegotiation where
  descriptorIndex : Nat
  needDsdBitReversal : Bool
  needDsdByteSwap : Bool
  conversionMode : DSDConversionMode
  deriving DecidableEq, Repr

/--
`DirettaSync::configureSinkDSD` (DirettaSync.cpp lines 826-946).
`accepts i` abstracts `checkSinkSupport` on the i-th descriptor in the
order the source tries them (see `dsdWireOrder`).  `sourceIsLSB` is
`format.dsdFormat == DSDFormat::DSF`.  Each branch stores the
bit-reversal flag, the byte-swap flag and the cached conversion mode
exactly as written in the source; `none` models the final
`std::runtime_error` throw.
-/
def configureSinkDSD (accepts : Nat → Bool) (sourceIsLSB : Bool) :
    Option DSDNegotiation :=
  if accepts 0 = true then
    some { descriptorIndex := 0, needDsdBitReversal := !sourceIsLSB,
           needDsdByteSwap := false,
           conversionMode := if !sourceIsLSB then DSDConversionMode.BitReverseOnly
                             else DSDConversionMode.Passthrough }
  else if accepts 1 = true then
    some { descriptorIndex := 1, needDsdBitReversal := sourceIsLSB,
           needDsdByteSwap := false,
           conversionMode := if sourceIsLSB then DSDConversionMode.BitReverseOnly
                             else DSDConversionMode.Passthrough }
  else if accepts 2 = true then
    some { descriptorIndex := 2, needDsdBitReversal := !sourceIsLSB,
           needDsdByteSwap := true,
           conversionMode := if !sourceIsLSB then DSDConversionMode.BitReverseAndSwap
                             else DSDConversionMode.ByteSwapOnly }
  else if accepts 3 = true then
    some { descriptorIndex := 3, needDsdBitReversal := sourceIsLSB,
           needDsdByteSwap := true,
           conversionMode := if sourceIsLSB then DSDConversionMode.BitReverseAndSwap
                             else DSDConversionMode.ByteSwapOnly }
  else if accepts 4 = true then
    some { descriptorIndex := 4, needDsdBitReversal := !sourceIsLSB,
           needDsdByteSwap := false,
           conversionMode :=
             if !sourceIsLSB && false then DSDConversionMode.BitReverseAndSwap
             else if !sourceIsLSB then DSDConversionMode.BitReverseOnly
             else if false then DSDConversionMode.ByteSwapOnly
             else DSDConversionMode.Passthrough }
  else none

/-- Calls issued to the sink transport (and the silence request posted to
the consumer) during an `open`, in order. -/
inductive SinkEvent
  | silenceRequest (buffers : Nat)
  | playCmd
  | stopCmd
  | setSinkFormat
  | connectHandshake
  | disconnectCmd
  deriving DecidableEq, Repr

/-- The same-format comparison of `DirettaSync::open`
(DirettaSync.cpp lines 340-343): sample rate, bit depth, channel count
and PCM/DSD kind. -/
def sameFormat (a b : AudioFormat) : Bool :=
  a.sampleRate == b.sampleRate && a.bitDepth == b.bitDepth &&
  a.channels == b.channels && a.isDSD == b.isDSD

/--
The same-format fast path of `DirettaSync::open`
(DirettaSync.cpp lines 339-377).  Returns `none` when the dispatch does
not take the fast path (not enabled, not open, no previous format, or a
format change — those continue into the full open paths, which involve
transport input/output outside this model).  On the fast path it returns
the successor state and the ordered transport events: the source requests
30 shutdown-silence buffers only when `m_isDsdMode` is set, then clears
the ring, resets the flags and calls `play()`.  The bounded wait for the
silence to drain is a timing loop and is elided.
-/
def openQuickResume (f : AudioFormat) (s : SyncState) :
    Option (SyncState × List SinkEvent) :=
  if s.enabled = false then none
  else if s.isOpen = true ∧ s.hasPreviousFormat = true ∧
          sameFormat s.previousFormat f = true then
    let step1 : SyncState × List SinkEvent :=
      if s.isDsdMode = true then
        (requestShutdownSilence 30 s, [SinkEvent.silenceRequest 30])
      else (s, [])
    let s1 := step1.1
    some ({ s1 with
            ring := [], prefillComplete := false,
            postOnlineDelayDone := false, stabilizationCount := 0,
            stopRequested := false, draining := false,
            silenceBuffersRemaining := 0, playing := true, paused := false },
          step1.2 ++ [SinkEvent.playCmd])
  else none

/-- The per-cycle byte target stored by `configureRingPCM`
(DirettaSync.cpp line 977): `((rate + 999) / 1000) * channels *
direttaBps`. -/
def pcmBytesPerBuffer (rate channels direttaBps : Nat) : Nat :=
  ((rate + 999) / 1000) * channels * direttaBps

/-- The per-cycle byte target stored by `configureRingDSD`
(DirettaSync.cpp lines 1008-1012): the floored per-millisecond byte
count, rounded up to a multiple of `4 * channels`, floored at 64. -/
def dsdBytesPerBuffer (byteRate channels : Nat) : Nat :=
  let inputBytesPerMs := (byteRate / 1000) * channels
  let rounded := ((inputBytesPerMs + (4 * channels - 1)) / (4 * channels)) * (4 * channels)
  if rounded < 64 then 64 else rounded

/-- The per-cycle byte target in the words of the spec (§4.2): bytes per
second over 1000, rounded up to a whole number of frames of `frameBytes`
bytes, floored at 64. -/
def specPerCycleTarget (bytesPerSecond frameBytes : Nat) : ℤ :=
  max 64 (⌈(bytesPerSecond : ℚ) / 1000 / (frameBytes : ℚ)⌉ * (frameBytes : ℤ))

/-- The DSD warmup cycle count in the words of the claim: `50 ms ×
dsd_multiplier` with the multiplier taken from the DSD bit rate of the
track being opened, divided by the cycle period derived from the MTU,
rounded up and clamped to `[50, 3000]`. -/
def claimedDsdWarmupTarget (dsdBitRate mtu : Nat) : Nat :=
  let dsdMultiplier : Nat := dsdBitRate / 2822400
  let targetWarmupMs : Nat := 50 * max 1 dsdMultiplier
  let efficientMTU : ℤ := (mtu : ℤ) - 24
  let bytesPerSecond : ℚ := (dsdBitRate : ℚ) * 2 / 8
  let cycleTimeUs : ℚ := (efficientMTU : ℚ) / bytesPerSecond * 1000000
  let buffersNeeded : ℚ := (targetWarmupMs : ℚ) * 1000 / cycleTimeUs
  let target : ℤ := ⌈buffersNeeded⌉
  (max 50 (min target 3000)).toNat

/-- Modelled from the spec: `DirettaBuffer::calculateBufferSize`
(DirettaBuffer.h is not in the sources).  §4.1: capacity is about 3 s of
the current byte rate for PCM and 1.5 s for DSD. -/
def calculateBufferSize (bytesPerSecond : Nat) (isDsd : Bool) : Nat :=
  if isDsd then bytesPerSecond * 3 / 2 else bytesPerSecond * 3

/-- Modelled from the spec: `DirettaBuffer::calculatePrefill`
(DirettaBuffer.h is not in the sources).  §4.1: roughly 40 ms of audio at
the current byte rate, raised for low-bitrate PCM; the raise factor is
not quantified by the spec, so a doubling is used.  No verified claim
depends on the exact value. -/
def calculatePrefill (bytesPerSecond : Nat) (isDsd lowBitrate : Bool) : Nat :=
  if lowBitrate && !isDsd then bytesPerSecond * 80 / 1000
  else bytesPerSecond * 40 / 1000

/--
`DirettaSync::configureRingPCM` (DirettaSync.cpp lines 952-987),
restricted to the modelled fields.  Note that it stores the PCM rate
into `m_sampleRate` (line 956).
-/
def configureRingPCM (rate channels direttaBps _inputBps : Nat)
    (s : SyncState) : SyncState :=
  let lowBitrate := decide (direttaBps ≤ 2 ∧ rate ≤ 48000)
  let bytesPerSecond := rate * channels * direttaBps
  let ringSize := calculateBufferSize bytesPerSecond false
  { s with
    sampleRate := rate, channels := channels, isDsdMode := false,
    ring := [], ringCapacity := ringSize, silenceByte := 0x00,
    bytesPerBuffer := pcmBytesPerBuffer rate channels direttaBps,
    prefillTarget := min (calculatePrefill bytesPerSecond false lowBitrate)
      (ringSize / 4),
    prefillComplete := false }

/--
`DirettaSync::configureRingDSD` (DirettaSync.cpp lines 989-1020),
restricted to the modelled fields.  The source stores the channel count,
the per-cycle byte target and the prefill target, but — unlike
`configureRingPCM` — it never stores the DSD rate into `m_sampleRate`,
so the `sampleRate` field is left untouched here exactly as in the
source.
-/
def configureRingDSD (byteRate channels : Nat) (s : SyncState) : SyncState :=
  let bytesPerSecond := byteRate * channels
  let ringSize := calculateBufferSize bytesPerSecond true
  { s with
    channels := channels, isDsdMode := true,
    ring := [], ringCapacity := ringSize, silenceByte := 0x69,
    bytesPerBuffer := dsdBytesPerBuffer byteRate channels,
    prefillTarget := min (calculatePrefill bytesPerSecond true false)
      (ringSize / 4),
    prefillComplete := false }

/-- The state of a freshly constructed `DirettaSync` (the member
initialisers of DirettaSync.h plus the constructor ring resize). -/
def initialState : SyncState :=
  { ring := [], ringCapacity := 44100 * 2 * 4, silenceByte := 0x00,
    bytesPerBuffer := 0, reconfiguring := false, ringUsers := 0,
    silenceBuffersRemaining := 0, stopRequested := false,
    prefillComplete := false, prefillTarget := 0,
    postOnlineDelayDone := false, stabilizationCount := 0,
    streamCount := 0, underrunCount := 0, isDsdMode := false,
    sampleRate := 0, channels := 0, effectiveMTU := 1500,
    draining := false, online := false, playing := false, paused := false,
    enabled := false, isOpen := false, hasPreviousFormat := false,
    previousFormat := { sampleRate := 0, bitDepth := 0, channels := 0,
                        isDSD := false, dsdFormat := DSDFileFormat.dsf },
    config := { cycleTime := 0, threadMode := 0, mtu := 0,
                mtuFallback := 1500, onlineWaitMs := 2000,
                formatSwitchDelayMs := 0, cycleTimeAuto := true } }

/-- Outcome flags of the external steps `enable` performs, abstracting
`discoverTarget` and `openSyncConnection`. -/
structure EnableEnv where
  discoverOk : Bool
  sessionOk : Bool
  deriving DecidableEq, Repr

/-- The external actions `enable` can perform, in order. -/
inductive EnableEvent
  | discoverTarget
  | measureMTU
  | openSession
  deriving DecidableEq, Repr

/--
`DirettaSync::enable` (DirettaSync.cpp lines 61-89).  When already
enabled it returns `true` immediately, before the configuration is
stored and before any discovery, MTU measurement or session open.
Otherwise the configuration is stored and the external steps run in
order (an MTU-measurement failure is non-fatal and only selects the
fallback value, so it is not a separate outcome here).
-/
def enable (env : EnableEnv) (cfg : DirettaConfig) (s : SyncState) :
    SyncState × Bool × List EnableEvent :=
  if s.enabled = true then (s, true, [])
  else
    let s1 := { s with config := cfg }
    if env.discoverOk = false then
      (s1, false, [EnableEvent.discoverTarget])
    else if env.sessionOk = false then
      (s1, false, [EnableEvent.discoverTarget, EnableEvent.measureMTU,
                   EnableEvent.openSession])
    else
      ({ s1 with enabled := true }, true,
       [EnableEvent.discoverTarget, EnableEvent.measureMTU,
        EnableEvent.openSession])

/-- Bridge between the `(a + b - 1) / b` rounding idiom of the source and
the rational ceiling used by the spec-level statements. -/
theorem cast_add_pred_div_eq_ceil (a b : ℕ) (hb : 0 < b) :
    (((a + b - 1) / b : ℕ) : ℤ) = ⌈(a : ℚ) / (b : ℚ)⌉ := by
  have hb' : (0 : ℚ) < (b : ℚ) := by exact_mod_cast hb
  have h1' : b * ((a + b - 1) / b) ≤ a + b - 1 := by
    rw [Nat.mul_comm]; exact Nat.div_mul_le_self _ _
  have h2' : a + b - 1 < b * ((a + b - 1) / b) + b := by
    have h2 : a + b - 1 < b * ((a + b - 1) / b + 1) := Nat.lt_mul_div_succ _ hb
    rw [Nat.mul_succ] at h2; exact h2
  have hlow : a ≤ ((a + b - 1) / b) * b := by rw [Nat.mul_comm]; omega
  have hhigh : ((a + b - 1) / b) * b < a + b := by rw [Nat.mul_comm]; omega
  have hc : ((((a + b - 1) / b : ℕ) : ℤ) : ℚ) = (((a + b - 1) / b : ℕ) : ℚ) := by
    norm_cast
  symm
  rw [Int.ceil_eq_iff]
  refine ⟨?_, ?_⟩
  · rw [lt_div_iff₀ hb', sub_mul, one_mul, hc]
    have hq : (((a + b - 1) / b : ℕ) : ℚ) * (b : ℚ) < (a : ℚ) + (b : ℚ) := by
      exact_mod_cast hhigh
    linarith
  · rw [div_le_iff₀ hb', hc]
    exact_mod_cast hlow

/--
C1.  Every invocation of the cycle callback returns `true` and produces
exactly `bytes_per_cycle` bytes; the six guards are evaluated in the
fixed source order, the shutdown-silence counter is decremented by
exactly one when that guard fires, exactly `bytes_per_cycle` bytes are
popped from the ring if and only if every guard passes, and on every
other branch the output is `bytes_per_cycle` copies of the silence byte
with the ring untouched.
-/
theorem getNewStream_cycle_contract (pcmWarmup : Nat) (s : SyncState) :
    (getNewStream pcmWarmup s).ret = true ∧
    (getNewStream pcmWarmup s).output.length = s.bytesPerBuffer ∧
    (guardsPass s →
      (getNewStream pcmWarmup s).output = s.ring.take s.bytesPerBuffer ∧
      (getNewStream pcmWarmup s).state.ring = s.ring.drop s.bytesPerBuffer) ∧
    (¬ guardsPass s →
      (getNewStream pcmWarmup s).output =
        List.replicate s.bytesPerBuffer s.silenceByte ∧
      (getNewStream pcmWarmup s).state.ring = s.ring) ∧
    (s.reconfiguring = true → (getNewStream pcmWarmup s).state = s) ∧
    (s.reconfiguring = false → 0 < s.silenceBuffersRemaining →
      (getNewStream pcmWarmup s).state.silenceBuffersRemaining =
        s.silenceBuffersRemaining - 1) := by
  unfold getNewStream guardsPass
  split_ifs with h1 h2 h3 h4 h5 <;>
    simp_all [List.length_take, warmupAdvance_ring]
  · exact fun h => absurd h (by omega)
  · rcases Nat.lt_or_ge s.ring.length s.bytesPerBuffer with h6 | h6
    · rw [if_pos h6]
      simp_all [List.length_take]
    · rw [if_neg (by omega)]
      simp_all [List.length_take]

/-- A playing PCM state with all cycle guards passing and eight buffered
bytes. -/
def pcmPlayingState : SyncState :=
  { initialState with
    enabled := true, isOpen := true, online := true, playing := true,
    prefillComplete := true, postOnlineDelayDone := true,
    bytesPerBuffer := 4, ring := [1, 2, 3, 4, 5, 6, 7, 8],
    ringCapacity := 16, prefillTarget := 6, channels := 2,
    sampleRate := 44100 }

theorem getNewStream_cycle_contract_witness :
    guardsPass pcmPlayingState ∧
    (getNewStream 64 pcmPlayingState).output = [1, 2, 3, 4] :=
  ⟨by decide,
   Eq.trans ((getNewStream_cycle_contract 64 pcmPlayingState).2.2.1
     (by decide)).1 (by decide)⟩

/--
C2.  When the callback reaches the normal path with fewer than
`bytes_per_cycle` bytes available, the underrun counter is incremented by
exactly one, the output is `bytes_per_cycle` copies of the silence byte,
nothing is popped from the ring, and the accumulated count is reported
and reset only by `stopPlayback` (the session-end report), never by the
callback itself.
-/
theorem underrun_counted_reported_on_stop (pcmW : Nat) (s : SyncState)
    (hrec : s.reconfiguring = false) (hsil : s.silenceBuffersRemaining = 0)
    (hstop : s.stopRequested = false) (hpre : s.prefillComplete = true)
    (hwarm : s.postOnlineDelayDone = true)
    (hav : s.ring.length < s.bytesPerBuffer) :
    (getNewStream pcmW s).state.underrunCount = s.underrunCount + 1 ∧
    (getNewStream pcmW s).output =
      List.replicate s.bytesPerBuffer s.silenceByte ∧
    (getNewStream pcmW s).state.ring = s.ring ∧
    ∀ (immediate : Bool) (t : SyncState),
      (stopPlayback immediate t).2 = t.underrunCount ∧
      (stopPlayback immediate t).1.underrunCount = 0 := by
  have hmain : (getNewStream pcmW s).state.underrunCount = s.underrunCount + 1 ∧
      (getNewStream pcmW s).output =
        List.replicate s.bytesPerBuffer s.silenceByte ∧
      (getNewStream pcmW s).state.ring = s.ring := by
    unfold getNewStream
    split_ifs <;> simp_all
  refine ⟨hmain.1, hmain.2.1, hmain.2.2, ?_⟩
  intro immediate t
  unfold stopPlayback requestShutdownSilence
  cases hp : t.playing <;> cases hd : t.isDsdMode <;> cases immediate <;>
    simp [hp, hd]

/-- A state on the normal path with only two buffered bytes, fewer than
the four-byte cycle. -/
def underrunState : SyncState :=
  { pcmPlayingState with ring := [1, 2] }

theorem underrun_counted_reported_on_stop_witness :
    (getNewStream 64 underrunState).state.underrunCount =
      underrunState.underrunCount + 1 :=
  (underrun_counted_reported_on_stop 64 underrunState (by decide) (by decide)
    (by decide) (by decide) (by decide) (by decide)).1

/--
C3.  `configureSinkPCM` tries wire bit depths in the descending order
32, 24, 16 at the requested rate and channel count and uses the first
accepted depth; when none is accepted the open fails (the
UnsupportedFormat outcome) leaving the enabled state untouched, and an
open of a format the sink does accept succeeds.
-/
theorem configureSinkPCM_descending_first_accepted
    (accepts : Nat → Nat → Nat → Bool) (rate channels : Nat) :
    (configureSinkPCM accepts rate channels = some 32 ↔
      accepts rate channels 32 = true) ∧
    (configureSinkPCM accepts rate channels = some 24 ↔
      accepts rate channels 32 = false ∧ accepts rate channels 24 = true) ∧
    (configureSinkPCM accepts rate channels = some 16 ↔
      accepts rate channels 32 = false ∧ accepts rate channels 24 = false ∧
      accepts rate channels 16 = true) ∧
    (configureSinkPCM accepts rate channels = none ↔
      accepts rate channels 32 = false ∧ accepts rate channels 24 = false ∧
      accepts rate channels 16 = false) ∧
    (∀ s : SyncState, configureSinkPCM accepts rate channels = none →
      openPCMModel accepts rate channels s = (false, s)) ∧
    (∀ s : SyncState,
      (openPCMModel accepts rate channels s).2.enabled = s.enabled) ∧
    (∀ s : SyncState, configureSinkPCM accepts rate channels ≠ none →
      (openPCMModel accepts rate channels s).1 = true) := by
  unfold openPCMModel configureSinkPCM
  cases h32 : accepts rate channels 32 <;>
    cases h24 : accepts rate channels 24 <;>
    cases h16 : accepts rate channels 16 <;>
    simp_all

/-- A sink acceptance oracle that accepts only 24-bit PCM. -/
def only24Accepts : Nat → Nat → Nat → Bool :=
  fun _ _ bits => bits == 24

theorem configureSinkPCM_descending_first_accepted_witness :
    configureSinkPCM only24Accepts 44100 2 = some 24 :=
  (configureSinkPCM_descending_first_accepted only24Accepts 44100 2).2.1.mpr
    (by decide)

/-- The source bit order of the upstream DSD stream: DSF sources are
LSB-first, DFF sources MSB-first (DirettaSync.cpp line 832). -/
def dsdSourceOrder (sourceIsLSB : Bool) : DSDBitOrder :=
  if sourceIsLSB then DSDBitOrder.lsb else DSDBitOrder.msb

/--
C4.  `configureSinkDSD` tries the descriptors in the order (LSB, BIG),
(MSB, BIG), (LSB, LITTLE), (MSB, LITTLE), then the minimal descriptor
(treated as an LSB, BIG target); the first accepted one is used, with
`needs_bit_reverse` true exactly when the source bit order differs from
the wire bit order, `needs_byte_swap` true exactly when the wire
endianness is LITTLE, and the stored conversion mode equal to the
encoding of that pair.  The negotiation fails exactly when no descriptor
is accepted.
-/
theorem configureSinkDSD_negotiation (accepts : Nat → Bool)
    (sourceIsLSB : Bool) :
    (configureSinkDSD accepts sourceIsLSB = none ↔
      ∀ i < 5, accepts i = false) ∧
    ∀ n, configureSinkDSD accepts sourceIsLSB = some n →
      n.descriptorIndex < 5 ∧ accepts n.descriptorIndex = true ∧
      (∀ j < n.descriptorIndex, accepts j = false) ∧
      (n.needDsdBitReversal = true ↔
        dsdSourceOrder sourceIsLSB ≠ dsdWireOrder n.descriptorIndex) ∧
      (n.needDsdByteSwap = true ↔
        dsdWireEndian n.descriptorIndex = DSDEndian.little) ∧
      n.conversionMode =
        encodeConversion n.needDsdBitReversal n.needDsdByteSwap := by
  constructor
  · unfold configureSinkDSD
    split_ifs with h0 h1 h2 h3 h4 <;> simp_all <;>
      first
      | exact ⟨0, by norm_num, h0⟩
      | exact ⟨1, by norm_num, h1⟩
      | exact ⟨2, by norm_num, h2⟩
      | exact ⟨3, by norm_num, h3⟩
      | exact ⟨4, by norm_num, h4⟩
      | (intro i hi; interval_cases i <;> simp_all)
  · intro n hn
    unfold configureSinkDSD at hn
    split_ifs at hn with h0 h1 h2 h3 h4 <;> injection hn with hn <;> subst hn <;>
      cases sourceIsLSB <;>
      simp_all [dsdSourceOrder, dsdWireOrder, dsdWireEndian,
        encodeConversion] <;>
      (intro j hj; interval_cases j <;> simp_all)

/-- A sink that accepts only the third descriptor, LSB | LITTLE. -/
def dsdOnlyLsbLittle : Nat → Bool := fun i => i == 2

/-- The negotiation the source stores for an MSB (DFF) source on an
LSB | LITTLE sink. -/
def dsdNegotiationSample : DSDNegotiation :=
  { descriptorIndex := 2, needDsdBitReversal := true,
    needDsdByteSwap := true,
    conversionMode := DSDConversionMode.BitReverseAndSwap }

theorem configureSinkDSD_negotiation_witness :
    dsdOnlyLsbLittle dsdNegotiationSample.descriptorIndex = true ∧
    dsdNegotiationSample.conversionMode =
      encodeConversion dsdNegotiationSample.needDsdBitReversal
        dsdNegotiationSample.needDsdByteSwap := by
  have h := (configureSinkDSD_negotiation dsdOnlyLsbLittle false).2
    dsdNegotiationSample (by decide)
  exact ⟨h.2.1, h.2.2.2.2.2⟩

/-- A PCM format matching `pcmReopenState.previousFormat`. -/
def pcmFormat441 : AudioFormat :=
  { sampleRate := 44100, bitDepth := 16, channels := 2, isDSD := false,
    dsdFormat := DSDFileFormat.dsf }

/-- An open PCM session whose previous format equals `pcmFormat441`, so a
same-format `open` takes the fast path while `m_isDsdMode` is false. -/
def pcmReopenState : SyncState :=
  { pcmPlayingState with
    hasPreviousFormat := true, previousFormat := pcmFormat441,
    isDsdMode := false }

/--
C5 counterexample.  On a same-format reopen of an open PCM session the
fast path is taken, yet the event trace contains no shutdown-silence
request at all (only the `play()` call): the source requests the ~30 ms
of shutdown silence only when `m_isDsdMode` is set, so the claim that the
silence drain happens on every same-format reopen fails at this input.
-/
theorem openQuickResume_pcm_no_silence :
    pcmReopenState.isOpen = true ∧
    pcmReopenState.hasPreviousFormat = true ∧
    sameFormat pcmReopenState.previousFormat pcmFormat441 = true ∧
    (openQuickResume pcmFormat441 pcmReopenState).map Prod.snd =
      some [SinkEvent.playCmd] ∧
    (openQuickResume pcmFormat441 pcmReopenState).map
      (fun r => r.1.silenceBuffersRemaining) = some 0 := by
  decide

/--
C5 amended.  On a same-format reopen of an open session the fast path
requests 30 shutdown-silence buffers only when the current mode is DSD
(for PCM no silence is requested), then clears the ring, resets the
prefill, warmup, stop-requested and drain flags, restarts playback, and
performs no `set_sink_format` call and no reconnect handshake.
-/
theorem openQuickResume_behaviour (f : AudioFormat) (s : SyncState)
    (hen : s.enabled = true) (hop : s.isOpen = true)
    (hprev : s.hasPreviousFormat = true)
    (hsame : sameFormat s.previousFormat f = true) :
    openQuickResume f s =
      some ({ s with
              ring := [], prefillComplete := false,
              postOnlineDelayDone := false, stabilizationCount := 0,
              stopRequested := false, draining := false,
              silenceBuffersRemaining := 0, playing := true,
              paused := false },
            (if s.isDsdMode = true then [SinkEvent.silenceRequest 30]
             else []) ++ [SinkEvent.playCmd]) ∧
    SinkEvent.setSinkFormat ∉
      ((if s.isDsdMode = true then [SinkEvent.silenceRequest 30]
        else []) ++ [SinkEvent.playCmd]) ∧
    SinkEvent.connectHandshake ∉
      ((if s.isDsdMode = true then [SinkEvent.silenceRequest 30]
        else []) ++ [SinkEvent.playCmd]) := by
  unfold openQuickResume requestShutdownSilence
  rw [if_neg (by simp [hen]), if_pos ⟨hop, hprev, hsame⟩]
  cases hd : s.isDsdMode <;> simp [hd]

/-- A DSD64 stereo DSF format. -/
def dsdFormat64 : AudioFormat :=
  { sampleRate := 2822400, bitDepth := 1, channels := 2, isDSD := true,
    dsdFormat := DSDFileFormat.dsf }

/-- An open DSD session whose previous format equals `dsdFormat64`. -/
def dsdReopenState : SyncState :=
  { pcmPlayingState with
    hasPreviousFormat := true, previousFormat := dsdFormat64,
    isDsdMode := true, silenceByte := 0x69 }

theorem openQuickResume_behaviour_witness :
    (openQuickResume dsdFormat64 dsdReopenState).map Prod.snd =
      some [SinkEvent.silenceRequest 30, SinkEvent.playCmd] := by
  rw [(openQuickResume_behaviour dsdFormat64 dsdReopenState (by decide)
    (by decide) (by decide) (by decide)).1]
  decide


/-- With a stored rate of 0 (the initial value of `m_sampleRate`), the
DSD stabilization computation degenerates to the lower clamp of 50. -/
theorem dsdStabilizationTarget_zero_rate (mtu : Nat) :
    dsdStabilizationTarget 0 mtu = 50 := by
  unfold dsdStabilizationTarget
  norm_num
  rfl

/-- Closed form of the DSD stabilization target for a positive stored
rate and an MTU above the 24-byte overhead: the ceiling division
`⌈targetWarmupMs * rate / (4000 * (mtu - 24))⌉` clamped to
`[50, 3000]`. -/
theorem dsdStabilizationTarget_closed (rate mtu : Nat) (hr : 0 < rate)
    (hm : 24 < mtu) :
    dsdStabilizationTarget rate mtu =
      max 50 (min ((50 * max 1 (rate / 2822400) * rate + 4000 * (mtu - 24) - 1) /
        (4000 * (mtu - 24))) 3000) := by
  unfold dsdStabilizationTarget
  dsimp only
  have hm4 : (0 : Nat) < 4000 * (mtu - 24) := by omega
  have hrQ : ((rate : ℚ)) ≠ 0 := by positivity
  have hmQ : ((mtu : ℚ) - 24) ≠ 0 := by
    have : (24 : ℚ) < (mtu : ℚ) := by exact_mod_cast hm
    linarith
  have harg : ((50 * max 1 (rate / 2822400) : ℕ) : ℚ) * 1000 /
      ((((mtu : ℤ) - 24 : ℤ) : ℚ) / ((rate : ℚ) * 2 / 8) * 1000000) =
      ((50 * max 1 (rate / 2822400) * rate : ℕ) : ℚ) /
        ((4000 * (mtu - 24) : ℕ) : ℚ) := by
    push_cast [Nat.cast_sub (le_of_lt hm)]
    field_simp
    ring
  rw [harg, ← cast_add_pred_div_eq_ceil _ _ hm4]
  omega

/--
C6.  The claim says the DSD warmup cycle count is computed from the DSD
bit rate of the opened track; the source instead loads `m_sampleRate`,
which `configureRingDSD` never stores (only `configureRingPCM` does), so
on the first DSD open the loaded rate is 0 and the computed target
degenerates to the lower clamp of 50 cycles.  At a DSD512x44.1 open
(bit rate 22579200, byte rate 2822400) with MTU 1500 the claimed count is
1530 cycles; the code produces 50.  This contradicts the comment block in
the source ("Target warmup time scales with DSD rate: DSD64: 50ms,
DSD128: 100ms, DSD256: 200ms, DSD512: 400ms"), so the code, not the
claim, is wrong.
-/
theorem dsd_warmup_reads_unset_sampleRate :
    (configureRingDSD (22579200 / 8) 2 initialState).sampleRate = 0 ∧
    (configureRingDSD (22579200 / 8) 2 initialState).isDsdMode = true ∧
    warmupTargetOf 64 (configureRingDSD (22579200 / 8) 2 initialState) = 50 ∧
    claimedDsdWarmupTarget 22579200 1500 = 1530 ∧
    dsdStabilizationTarget 0 1500 = 50 := by
  refine ⟨rfl, rfl, ?_, ?_, dsdStabilizationTarget_zero_rate 1500⟩
  · exact (show warmupTargetOf 64 (configureRingDSD (22579200 / 8) 2 initialState) =
      dsdStabilizationTarget 0 1500 from rfl).trans
      (dsdStabilizationTarget_zero_rate 1500)
  · have hsame : claimedDsdWarmupTarget 22579200 1500 =
        dsdStabilizationTarget 22579200 1500 := rfl
    rw [hsame, dsdStabilizationTarget_closed 22579200 1500 (by norm_num)
      (by norm_num)]
    decide

/--
C7.  After a push, `prefill_complete` holds exactly when it already held
or the push wrote at least one byte and left at least `prefill_target`
bytes buffered (so it flips on precisely the first such push); and while
`prefill_complete` is false every cycle callback writes silence and pops
nothing from the ring.
-/
theorem prefill_released_exactly_at_target (data : List Nat) (s : SyncState) :
    ((sendAudio data s).1.prefillComplete = true ↔
      (s.prefillComplete = true ∨
        (0 < (sendAudio data s).2 ∧
         s.prefillTarget ≤ (sendAudio data s).1.ring.length))) ∧
    (s.prefillComplete = false → ∀ pcmW : Nat,
      (getNewStream pcmW s).output =
        List.replicate s.bytesPerBuffer s.silenceByte ∧
      (getNewStream pcmW s).state.ring = s.ring) := by
  constructor
  · unfold sendAudio sendAudioObs ringGuardAcquire ringPush
    split_ifs <;> simp_all
    all_goals (split_ifs at * <;> simp_all)
    all_goals
      (first
        | omega
        | simp_all [Bool.not_eq_false]
        | (rename_i himp
           intro h1 h2 h3
           cases hq : s.prefillComplete
           · exact absurd (himp h1 h2 hq) (by omega)
           · rfl))
  · intro hpre pcmW
    unfold getNewStream
    split_ifs <;> simp_all [warmupAdvance_ring]

/-- A producer state before prefill: online, empty four-byte-cycle ring,
prefill target 6. -/
def prefillingState : SyncState :=
  { pcmPlayingState with
    ring := [], prefillComplete := false, online := true }

theorem prefill_released_exactly_at_target_witness :
    (sendAudio [9, 9, 9, 9, 9, 9] prefillingState).1.prefillComplete = true :=
  (prefill_released_exactly_at_target [9, 9, 9, 9, 9, 9]
    prefillingState).1.mpr (Or.inr (by decide))

/--
C9.  `sendAudio` returns 0 and leaves the state (and hence the ring)
unchanged when the core is draining, a stop has been requested, the
transport is offline, or the reconfiguring flag is set — including the
interleaving in which the flag is observed only by the second guard
load, after the ring-user count was incremented: the guard then
decrements the count back and reports inactive.
-/
theorem sendAudio_rejected_paths (o1 o2 : Bool) (users : Nat)
    (data : List Nat) (s : SyncState) :
    (o1 = true ∨ o2 = true →
      ringGuardAcquire users o1 o2 = (false, users)) ∧
    (ringGuardAcquire users false true = (false, users + 1 - 1)) ∧
    (s.draining = true ∨ s.stopRequested = true ∨ s.online = false →
      sendAudio data s = (s, 0)) ∧
    (s.reconfiguring = true → sendAudio data s = (s, 0)) ∧
    (o1 = true ∨ o2 = true → sendAudioObs o1 o2 data s = (s, 0)) := by
  refine ⟨?_, rfl, ?_, ?_, ?_⟩
  · rintro (rfl | rfl)
    · cases o2 <;> simp [ringGuardAcquire]
    · cases o1 <;> simp [ringGuardAcquire]
  · rintro (h | h | h) <;>
      unfold sendAudio sendAudioObs <;>
      split_ifs <;> simp_all
  · intro h
    unfold sendAudio sendAudioObs ringGuardAcquire
    split_ifs <;> simp_all
  · intro h
    unfold sendAudioObs ringGuardAcquire
    split_ifs <;> simp_all

/-- A draining state: the producer must be rejected. -/
def drainingState : SyncState :=
  { pcmPlayingState with draining := true }

theorem sendAudio_rejected_paths_witness :
    sendAudio [7] drainingState = (drainingState, 0) :=
  (sendAudio_rejected_paths false true 3 [7] drainingState).2.2.1
    (Or.inl (by decide))

/--
C10.  Calling `enable` when the core is already enabled returns `true`
immediately with no external action (no discovery, no MTU measurement,
no session open) and without replacing the stored configuration, for
every configuration argument and environment outcome.
-/
theorem enable_idempotent_when_enabled (env : EnableEnv)
    (cfg : DirettaConfig) (s : SyncState) (h : s.enabled = true) :
    enable env cfg s = (s, true, []) := by
  unfold enable
  rw [if_pos h]

/-- An enabled core with a stored configuration. -/
def enabledState : SyncState :=
  { initialState with enabled := true }

theorem enable_idempotent_when_enabled_witness :
    enable { discoverOk := true, sessionOk := true }
      { cycleTime := 9999, threadMode := 1, mtu := 9000, mtuFallback := 1500,
        onlineWaitMs := 1, formatSwitchDelayMs := 1, cycleTimeAuto := false }
      enabledState = (enabledState, true, []) :=
  enable_idempotent_when_enabled _ _ _ (by decide)

/--
C8 counterexample.  At 8 kHz 16-bit stereo PCM the stored per-cycle
target is 32 bytes — below the 64-byte floor the claim asserts for PCM —
while the spec formula gives 64; and for DSD64 stereo (byte rate 352800)
the stored target is 704 bytes whereas rounding the exact per-millisecond
byte count up to a whole number of frames gives 712.
-/
theorem perCycleTarget_counterexample :
    pcmBytesPerBuffer 8000 2 2 = 32 ∧
    specPerCycleTarget (8000 * 2 * 2) (2 * 2) = 64 ∧
    ¬ (64 : Nat) ≤ pcmBytesPerBuffer 8000 2 2 ∧
    dsdBytesPerBuffer 352800 2 = 704 ∧
    specPerCycleTarget (352800 * 2) (4 * 2) = 712 := by
  have h1 : ⌈((8000 * 2 * 2 : ℕ) : ℚ) / 1000 / ((2 * 2 : ℕ) : ℚ)⌉ = (8 : ℤ) := by
    rw [Int.ceil_eq_iff]
    norm_num
  have h2 : ⌈((352800 * 2 : ℕ) : ℚ) / 1000 / ((4 * 2 : ℕ) : ℚ)⌉ = (89 : ℤ) := by
    rw [Int.ceil_eq_iff]
    norm_num
  refine ⟨rfl, ?_, by decide, rfl, ?_⟩ <;>
    unfold specPerCycleTarget <;>
    first
      | (rw [h1]; decide)
      | (rw [h2]; decide)

/--
C8 amended.  The PCM per-cycle target equals one millisecond of frames
rounded up — `⌈rate / 1000⌉ × channels × sample_bytes` — with no 64-byte
floor; the DSD per-cycle target starts from the floored per-millisecond
byte count `(byteRate / 1000) × channels`, rounds it up to a whole
number of 4-byte-per-channel words, and only that DSD value is floored
at 64 bytes.
-/
theorem perCycleTarget_amended (rate channels bps byteRate : Nat)
    (hch : 0 < channels) :
    ((pcmBytesPerBuffer rate channels bps : ℕ) : ℤ) =
      ⌈(rate : ℚ) / (1000 : ℚ)⌉ * channels * bps ∧
    ((dsdBytesPerBuffer byteRate channels : ℕ) : ℤ) =
      max 64 (⌈((byteRate / 1000 * channels : ℕ) : ℚ) /
        ((4 * channels : ℕ) : ℚ)⌉ * ((4 * channels : ℕ) : ℤ)) := by
  constructor
  · have hb := cast_add_pred_div_eq_ceil rate 1000 (by norm_num)
    have hshift : rate + 1000 - 1 = rate + 999 := by omega
    rw [hshift] at hb
    simp only [Nat.cast_ofNat] at hb
    unfold pcmBytesPerBuffer
    simp only [Nat.cast_mul]
    rw [hb]
  · have hc : (0 : Nat) < 4 * channels := by omega
    have hb := cast_add_pred_div_eq_ceil (byteRate / 1000 * channels)
      (4 * channels) hc
    have hpar : byteRate / 1000 * channels + (4 * channels - 1) =
        byteRate / 1000 * channels + 4 * channels - 1 := by omega
    unfold dsdBytesPerBuffer
    dsimp only
    rw [hpar, ← hb, ← Nat.cast_mul]
    split_ifs with hlt <;> omega

theorem perCycleTarget_amended_witness :
    ((pcmBytesPerBuffer 44100 2 2 : ℕ) : ℤ) =
      ⌈((44100 : ℕ) : ℚ) / (1000 : ℚ)⌉ * 2 * 2 :=
  (perCycleTarget_amended 44100 2 2 352800 (by decide)).1
